import Mathlib

/-!
Verification development for the legal-judge-ai Rust API service.

This file gives a shallow embedding of `src/rust-api/src/main.rs` and
`src/rust-api/src/models.rs` and proves properties of the
`analyze_brief` handler and of the schema-layer request types.

Modelling conventions:
- Bytes of the uploaded file are `List Nat`.
- Rust `f64` decimal literals in the source (0.85, 0.10, 0.05, 0.92,
  0.88, 0.6) are modelled as the exact rationals they denote; every
  numeric property proved here has a tolerance (1e-6) that dwarfs the
  representation error of these short decimals in `f64` (< 1e-15).
- A Rust `HashMap` literal is modelled as the association list of its
  entries; the properties proved about it (sum of values) are
  insensitive to iteration order.
- The network is modelled as an oracle: `analyze_brief` receives the
  outcome of the OCR backend call as a parameter of type `OcrOutcome`
  and returns, next to the HTTP response, the list of backend calls it
  issued during the request.
-/

/-- A JSON value as handled by serde_json in the source. Numbers are
modelled as rationals. -/
inductive Json where
  | null : Json
  | bool : Bool → Json
  | num : ℚ → Json
  | str : String → Json
  | arr : List Json → Json
  | obj : List (String × Json) → Json

/-- Indexing a serde_json `Value` with a string key (the source's
`json["full_text"]`): on an object, the value at the first matching
key, `Null` when absent; `Null` on every non-object. -/
def Json.index : Json → String → Json
  | .obj kvs, k =>
    match kvs.find? (fun kv => kv.1 = k) with
    | some kv => kv.2
    | none => .null
  | _, _ => .null

/-- serde_json `Value::as_str`: `some` on a string value, `none`
otherwise. -/
def Json.asStr : Json → Option String
  | .str s => some s
  | _ => none

/-- One part of the inbound multipart submission: `field.name()` is an
`Option<&str>`, the declared media type of the part, and the outcome of
`field.bytes()` (`none` models an `Err`). -/
structure MultipartField where
  name : Option String
  contentType : String
  bytesResult : Option (List Nat)
deriving DecidableEq

/-- The body of the multipart loop of `analyze_brief` (main.rs:58-65):
when the field is named "file" and its bytes read `Ok`, `pdf_bytes` is
overwritten with that field's bytes; otherwise it is left unchanged. -/
def filePartStep (acc : List Nat) (f : MultipartField) : List Nat :=
  if f.name = some "file" then
    match f.bytesResult with
    | some bs => bs
    | none => acc
  else acc

/-- The multipart loop of `analyze_brief` (main.rs:57-65): `pdf_bytes`
starts empty and `filePartStep` is applied to every inbound field in
order. -/
def extractPdfBytes (fields : List MultipartField) : List Nat :=
  fields.foldl filePartStep []

/-- Outcome of the OCR backend call as observed by the handler
(main.rs:83-98): a transport-level `Err(e)`, an `Ok` response whose
body failed to parse as JSON, or an `Ok` response with a parsed JSON
body. -/
inductive OcrOutcome where
  | transportErr (msg : String) : OcrOutcome
  | invalidJson : OcrOutcome
  | ok (body : Json) : OcrOutcome

/-- The `ocr_text` value computed by the `match` in main.rs:83-98:
on transport error the mock placeholder, on a JSON parse failure the
parse-failure placeholder, and otherwise
`json["full_text"].as_str().unwrap_or("No text returned")`. -/
def ocrTextOf : OcrOutcome → String
  | .transportErr _ => "Error contacting OCR service (Is it running?). Using mock text."
  | .invalidJson => "OCR Failed to parse JSON"
  | .ok body =>
    match (body.index "full_text").asStr with
    | some s => s
    | none => "No text returned"

/-- A backend call issued during one request. The source only ever
issues the OCR call (main.rs:83); the retrieval, prediction and
opinion constructors exist so that their absence from a request's
trace is a statable property. -/
inductive BackendCall where
  | ocr (body : List Nat) (filename : String) (mime : String) : BackendCall
  | retrieval (query : String) : BackendCall
  | prediction (facts issue : String) : BackendCall
  | opinion (context : String) : BackendCall
deriving DecidableEq

/-- main.rs `OutcomePrediction` (main.rs:39-43): label and the
probability map, modelled as an association list. -/
structure OutcomePrediction where
  label : String
  probabilities : List (String × ℚ)
deriving DecidableEq

/-- main.rs `CaseResult` (main.rs:45-51). -/
structure CaseResult where
  case_name : String
  citation : String
  relevance_score : ℚ
  snippet : String
deriving DecidableEq

/-- main.rs `AnalyzeResponse` (main.rs:31-37). -/
structure AnalyzeResponse where
  ocr_text : String
  predicted_outcome : OutcomePrediction
  top_cases : List CaseResult
  judge_opinion : String
deriving DecidableEq

/-- The HTTP response body of `analyze_brief`: either the error object
`Json(json!(\x7b "error": msg \x7d))` or a serialized `AnalyzeResponse`. -/
inductive Response where
  | errorObj (message : String) : Response
  | analysis (body : AnalyzeResponse) : Response
deriving DecidableEq

/-- The `analyze_brief` handler (main.rs:53-132). Returns the response
body together with the list of backend calls issued. The preview
`ocr_text.chars().take(500).collect::<String>() + "..."` is the first
500 characters of the extracted text followed by `"..."`. The
prediction, case list and opinion are the hard-coded Phase-2A dummy
values of main.rs:104-129. -/
def analyze_brief (fields : List MultipartField) (ocrBackend : OcrOutcome) :
    Response × List BackendCall :=
  let pdf_bytes := extractPdfBytes fields
  if pdf_bytes = [] then
    (Response.errorObj "No file uploaded", [])
  else
    let ocr_text := ocrTextOf ocrBackend
    (Response.analysis
      { ocr_text := String.mk (ocr_text.data.take 500) ++ "..."
        predicted_outcome :=
          { label := "PLAINTIFF_WINS"
            probabilities :=
              [("PLAINTIFF_WINS", 85/100), ("DEFENDANT_WINS", 10/100),
               ("MIXED", 5/100)] }
        top_cases :=
          [{ case_name := "Hilder v. St. Peter"
             citation := "478 A.2d 202 (Vt. 1984)"
             relevance_score := 92/100
             snippet := "Implied warranty of habitability exists in every residential lease..." },
           { case_name := "Javins v. First National Realty"
             citation := "428 F.2d 1071"
             relevance_score := 88/100
             snippet := "Leases of urban dwellings contain implied warranty..." }]
        judge_opinion := "Based on the precedents of Hilder and Javins, the court finds that the landlord breach..." },
     [BackendCall.ocr pdf_bytes "brief.pdf" "application/pdf"])

namespace Models

/-- models.rs:48. -/
def default_top_k : Int := 10

/-- models.rs:49. -/
def default_min_similarity : ℚ := 6/10

/-- models.rs:115. -/
def default_opinion_type : String := "per_curiam"

/-- models.rs:116. -/
def default_max_precedents : Int := 5

/-- models.rs `SearchRequest` (models.rs:36-46). -/
structure SearchRequest where
  query : String
  top_k : Int
  section_filter : Option String
  year_range : Option (List Int)
  min_similarity : ℚ
deriving DecidableEq

/-- serde deserialization of `SearchRequest`: a `none` argument models
an omitted JSON field, and `#[serde(default = ...)]` supplies the
schema default for `top_k` and `min_similarity` exactly then. -/
def SearchRequest.deserialize (query : String) (top_k : Option Int)
    (section_filter : Option String) (year_range : Option (List Int))
    (min_similarity : Option ℚ) : SearchRequest :=
  { query := query
    top_k := top_k.getD default_top_k
    section_filter := section_filter
    year_range := year_range
    min_similarity := min_similarity.getD default_min_similarity }

/-- models.rs `CaseContext` (models.rs:118-128). -/
structure CaseContext where
  case_number : String
  petitioner : String
  respondent : String
  lower_court : String
  facts : String
  issue : String
  procedural_history : Option String
deriving DecidableEq

/-- models.rs `OpinionRequest` (models.rs:106-113). -/
structure OpinionRequest where
  case_context : CaseContext
  opinion_type : String
  max_precedents : Int
deriving DecidableEq

/-- serde deserialization of `OpinionRequest`: a `none` argument models
an omitted JSON field, and `#[serde(default = ...)]` supplies the
schema default for `opinion_type` and `max_precedents` exactly then. -/
def OpinionRequest.deserialize (case_context : CaseContext)
    (opinion_type : Option String) (max_precedents : Option Int) :
    OpinionRequest :=
  { case_context := case_context
    opinion_type := opinion_type.getD default_opinion_type
    max_precedents := max_precedents.getD default_max_precedents }

end Models

/-- Whether a response is the structured error object. -/
def Response.isError : Response → Bool
  | .errorObj _ => true
  | .analysis _ => false

/-- The `ocr_text` field of a response, when it is an analysis. -/
def Response.ocrTextField : Response → Option String
  | .errorObj _ => none
  | .analysis a => some a.ocr_text

/-- The analysis body of a response, with an empty default body on the
error case. -/
def Response.getAnalysisD : Response → AnalyzeResponse
  | .errorObj _ => ⟨"", ⟨"", []⟩, [], ""⟩
  | .analysis a => a

/-- Unfolding of `analyze_brief` when the accumulated file bytes are
empty: the error object and an empty backend-call trace. -/
theorem analyze_brief_of_empty (fields : List MultipartField)
    (b : OcrOutcome) (h : extractPdfBytes fields = []) :
    analyze_brief fields b = (Response.errorObj "No file uploaded", []) := by
  simp [analyze_brief, h]

/-- Unfolding of `analyze_brief` when the accumulated file bytes are
non-empty: the dummy analysis response around the OCR text preview,
and a trace holding exactly the one OCR call. -/
theorem analyze_brief_of_ne (fields : List MultipartField)
    (b : OcrOutcome) (h : extractPdfBytes fields ≠ []) :
    analyze_brief fields b =
      (Response.analysis
        { ocr_text := String.mk ((ocrTextOf b).data.take 500) ++ "..."
          predicted_outcome :=
            { label := "PLAINTIFF_WINS"
              probabilities :=
                [("PLAINTIFF_WINS", 85/100), ("DEFENDANT_WINS", 10/100),
                 ("MIXED", 5/100)] }
          top_cases :=
            [{ case_name := "Hilder v. St. Peter"
               citation := "478 A.2d 202 (Vt. 1984)"
               relevance_score := 92/100
               snippet := "Implied warranty of habitability exists in every residential lease..." },
             { case_name := "Javins v. First National Realty"
               citation := "428 F.2d 1071"
               relevance_score := 88/100
               snippet := "Leases of urban dwellings contain implied warranty..." }]
          judge_opinion := "Based on the precedents of Hilder and Javins, the court finds that the landlord breach..." },
       [BackendCall.ocr (extractPdfBytes fields) "brief.pdf" "application/pdf"]) := by
  simp [analyze_brief, h]

/-- C1 counterexample: with a non-empty upload and a transport-level
OCR failure ("connection refused"), `analyze_brief` does not fail the
request with a structured error: the response is a normal analysis
body, and its `ocr_text` is the substituted mock placeholder text with
the ellipsis marker appended. -/
theorem C1_counterexample :
    Response.isError
        (analyze_brief [⟨some "file", "application/pdf", some [37]⟩]
          (OcrOutcome.transportErr "connection refused")).1 = false ∧
    Response.ocrTextField
        (analyze_brief [⟨some "file", "application/pdf", some [37]⟩]
          (OcrOutcome.transportErr "connection refused")).1 =
      some "Error contacting OCR service (Is it running?). Using mock text...." := by
  constructor <;> rfl

/-- C1 (amended): for every request with non-empty accumulated file
bytes whose OCR backend call fails at transport level, `analyze_brief`
does not fail the request: it substitutes the fixed mock placeholder
text for the extracted text and returns a normal analysis response;
the backend-call trace holds exactly the one OCR call, so no
Prediction or Opinion backend call is issued. -/
theorem C1_transport_failure_substitutes_mock_text
    (fields : List MultipartField) (msg : String)
    (h : extractPdfBytes fields ≠ []) :
    Response.isError
        (analyze_brief fields (OcrOutcome.transportErr msg)).1 = false ∧
    Response.ocrTextField
        (analyze_brief fields (OcrOutcome.transportErr msg)).1 =
      some "Error contacting OCR service (Is it running?). Using mock text...." ∧
    (analyze_brief fields (OcrOutcome.transportErr msg)).2 =
      [BackendCall.ocr (extractPdfBytes fields) "brief.pdf" "application/pdf"] := by
  rw [analyze_brief_of_ne fields (OcrOutcome.transportErr msg) h]
  refine ⟨rfl, ?_, rfl⟩
  rfl

/-- C1 witness: the amended theorem applied at a concrete one-field
upload. -/
theorem C1_witness :
    extractPdfBytes [⟨some "file", "application/pdf", some [1, 2, 3]⟩] ≠ [] ∧
    (analyze_brief [⟨some "file", "application/pdf", some [1, 2, 3]⟩]
        (OcrOutcome.transportErr "timeout")).2 =
      [BackendCall.ocr
        (extractPdfBytes [⟨some "file", "application/pdf", some [1, 2, 3]⟩])
        "brief.pdf" "application/pdf"] :=
  ⟨by decide,
   (C1_transport_failure_substitutes_mock_text
     [⟨some "file", "application/pdf", some [1, 2, 3]⟩] "timeout"
     (by decide)).2.2⟩

/-- C2: for every multipart submission whose accumulated file bytes
are empty (in particular when no "file" field is present),
`analyze_brief` returns exactly the error object with message
"No file uploaded" and issues zero backend calls. -/
theorem C2_empty_upload_error_no_calls (fields : List MultipartField)
    (b : OcrOutcome) (h : extractPdfBytes fields = []) :
    analyze_brief fields b = (Response.errorObj "No file uploaded", []) :=
  analyze_brief_of_empty fields b h

/-- C2 witness: the theorem applied to a submission with no "file"
field at all. -/
theorem C2_witness :
    extractPdfBytes [⟨some "attachment", "application/pdf", some [1]⟩] = [] ∧
    analyze_brief [⟨some "attachment", "application/pdf", some [1]⟩]
        OcrOutcome.invalidJson =
      (Response.errorObj "No file uploaded", []) :=
  ⟨by decide,
   C2_empty_upload_error_no_calls
     [⟨some "attachment", "application/pdf", some [1]⟩]
     OcrOutcome.invalidJson (by decide)⟩

/-- C3: for every extracted text of length at most 10,000 characters,
the `ocr_text` preview of the analysis response has length at most the
cap of 500 characters plus the length of the ellipsis marker "...";
and the backend-call trace holds no Prediction or Opinion call, so no
(truncated or otherwise) text is passed to downstream prediction or
opinion stages at all. -/
theorem C3_preview_length_bound (fields : List MultipartField)
    (b : OcrOutcome) (h : extractPdfBytes fields ≠ [])
    (_hlen : (ocrTextOf b).length ≤ 10000) :
    ∃ a, (analyze_brief fields b).1 = Response.analysis a ∧
      a.ocr_text.length ≤ 500 + "...".length ∧
      ∀ c ∈ (analyze_brief fields b).2,
        (∀ fct iss, c ≠ BackendCall.prediction fct iss) ∧
        (∀ ctx, c ≠ BackendCall.opinion ctx) := by
  rw [analyze_brief_of_ne fields b h]
  refine ⟨_, rfl, ?_, ?_⟩
  · rw [String.length_append, String.length_mk, List.length_take]
    have : min 500 (ocrTextOf b).data.length ≤ 500 := min_le_left _ _
    omega
  · intro c hc
    simp only [List.mem_singleton] at hc
    subst hc
    exact ⟨fun fct iss => by simp, fun ctx => by simp⟩

/-- C3 witness: the theorem applied at a concrete upload with the
JSON-parse-failure placeholder as extracted text. -/
theorem C3_witness :
    extractPdfBytes [⟨some "file", "application/pdf", some [9]⟩] ≠ [] ∧
    (ocrTextOf OcrOutcome.invalidJson).length ≤ 10000 ∧
    ∃ a,
      (analyze_brief [⟨some "file", "application/pdf", some [9]⟩]
          OcrOutcome.invalidJson).1 = Response.analysis a ∧
      a.ocr_text.length ≤ 500 + "...".length ∧
      ∀ c ∈ (analyze_brief [⟨some "file", "application/pdf", some [9]⟩]
          OcrOutcome.invalidJson).2,
        (∀ fct iss, c ≠ BackendCall.prediction fct iss) ∧
        (∀ ctx, c ≠ BackendCall.opinion ctx) :=
  ⟨by decide, by decide,
   C3_preview_length_bound [⟨some "file", "application/pdf", some [9]⟩]
     OcrOutcome.invalidJson (by decide) (by decide)⟩

/-- C4: in every analysis response returned by `analyze_brief`, the
values of the probabilities map of the predicted outcome sum to 1
within tolerance 1e-6 (here exactly: 0.85 + 0.10 + 0.05 = 1). -/
theorem C4_probabilities_sum_to_one (fields : List MultipartField)
    (b : OcrOutcome) (a : AnalyzeResponse)
    (h : (analyze_brief fields b).1 = Response.analysis a) :
    |(a.predicted_outcome.probabilities.map Prod.snd).sum - 1| ≤
      1 / 1000000 := by
  by_cases he : extractPdfBytes fields = []
  · rw [analyze_brief_of_empty fields b he] at h
    exact absurd h (by simp)
  · rw [analyze_brief_of_ne fields b he] at h
    injection h with h
    subst h
    norm_num

/-- C4 witness: the theorem applied at a concrete upload. -/
theorem C4_witness :
    (analyze_brief [⟨some "file", "application/pdf", some [7]⟩]
        (OcrOutcome.ok (Json.obj [("full_text", Json.str "brief")]))).1 =
      Response.analysis
        ((analyze_brief [⟨some "file", "application/pdf", some [7]⟩]
          (OcrOutcome.ok (Json.obj [("full_text", Json.str "brief")]))).1.getAnalysisD) ∧
    |(((analyze_brief [⟨some "file", "application/pdf", some [7]⟩]
        (OcrOutcome.ok (Json.obj [("full_text", Json.str "brief")]))).1.getAnalysisD).predicted_outcome.probabilities.map
        Prod.snd).sum - 1| ≤ 1 / 1000000 := by
  constructor
  · rfl
  · exact C4_probabilities_sum_to_one
      [⟨some "file", "application/pdf", some [7]⟩]
      (OcrOutcome.ok (Json.obj [("full_text", Json.str "brief")]))
      ((analyze_brief [⟨some "file", "application/pdf", some [7]⟩]
        (OcrOutcome.ok (Json.obj [("full_text", Json.str "brief")]))).1.getAnalysisD)
      (by rfl)

/-- The ordering the spec requires of `top_cases`: strictly greater
relevance score first, with ties of equal score broken by ascending
lexicographic case name. -/
def topCasesOrder (x y : CaseResult) : Prop :=
  y.relevance_score < x.relevance_score ∨
    (x.relevance_score = y.relevance_score ∧ x.case_name < y.case_name)

/-- C5: in every analysis response returned by `analyze_brief`, the
`top_cases` list is sorted by relevance score descending with ties
broken by case name ascending (here: 0.92 before 0.88, no ties). -/
theorem C5_top_cases_sorted (fields : List MultipartField)
    (b : OcrOutcome) (a : AnalyzeResponse)
    (h : (analyze_brief fields b).1 = Response.analysis a) :
    List.Pairwise topCasesOrder a.top_cases := by
  by_cases he : extractPdfBytes fields = []
  · rw [analyze_brief_of_empty fields b he] at h
    exact absurd h (by simp)
  · rw [analyze_brief_of_ne fields b he] at h
    injection h with h
    subst h
    refine List.Pairwise.cons ?_ (List.pairwise_singleton _ _)
    intro y hy
    rw [List.mem_singleton] at hy
    subst hy
    left
    norm_num

/-- C5 witness: the theorem applied at a concrete upload. -/
theorem C5_witness :
    (analyze_brief [⟨some "file", "application/pdf", some [4]⟩]
        (OcrOutcome.transportErr "refused")).1 =
      Response.analysis
        ((analyze_brief [⟨some "file", "application/pdf", some [4]⟩]
          (OcrOutcome.transportErr "refused")).1.getAnalysisD) ∧
    List.Pairwise topCasesOrder
      ((analyze_brief [⟨some "file", "application/pdf", some [4]⟩]
        (OcrOutcome.transportErr "refused")).1.getAnalysisD).top_cases := by
  constructor
  · rfl
  · exact C5_top_cases_sorted
      [⟨some "file", "application/pdf", some [4]⟩]
      (OcrOutcome.transportErr "refused")
      ((analyze_brief [⟨some "file", "application/pdf", some [4]⟩]
        (OcrOutcome.transportErr "refused")).1.getAnalysisD)
      (by rfl)

/-- C6: deserialization with the defaulted fields omitted yields the
schema-layer defaults: `top_k = 10`, `min_similarity = 0.6`,
`opinion_type = "per_curiam"`, `max_precedents = 5`. -/
theorem C6_schema_defaults (q : String) (sf : Option String)
    (yr : Option (List Int)) (cc : Models.CaseContext) :
    (Models.SearchRequest.deserialize q none sf yr none).top_k = 10 ∧
    (Models.SearchRequest.deserialize q none sf yr none).min_similarity
      = 6 / 10 ∧
    (Models.OpinionRequest.deserialize cc none none).opinion_type
      = "per_curiam" ∧
    (Models.OpinionRequest.deserialize cc none none).max_precedents = 5 :=
  ⟨rfl, rfl, rfl, rfl⟩

/-- C7 counterexample: on a 2xx OCR response whose JSON body lacks the
`full_text` field, the handler does not fail with a malformed-response
error: it substitutes the string "No text returned" and returns a
normal analysis response. -/
theorem C7_counterexample :
    ocrTextOf (OcrOutcome.ok (Json.obj [("status", Json.str "ok")]))
      = "No text returned" ∧
    Response.isError
        (analyze_brief [⟨some "file", "application/pdf", some [1]⟩]
          (OcrOutcome.ok (Json.obj [("status", Json.str "ok")]))).1
      = false ∧
    Response.ocrTextField
        (analyze_brief [⟨some "file", "application/pdf", some [1]⟩]
          (OcrOutcome.ok (Json.obj [("status", Json.str "ok")]))).1
      = some "No text returned..." := by
  refine ⟨rfl, rfl, rfl⟩

/-- C7 (amended): for every 2xx OCR response whose JSON body lacks the
expected `full_text` string field, the handler substitutes the
placeholder "No text returned" for the extracted text and the request
completes as a normal analysis response rather than failing. -/
theorem C7_missing_full_text_substitutes_placeholder (body : Json)
    (hb : (body.index "full_text").asStr = none)
    (fields : List MultipartField) (hne : extractPdfBytes fields ≠ []) :
    ocrTextOf (OcrOutcome.ok body) = "No text returned" ∧
    Response.isError (analyze_brief fields (OcrOutcome.ok body)).1
      = false := by
  constructor
  · show (match (body.index "full_text").asStr with
        | some s => s
        | none => "No text returned") = "No text returned"
    rw [hb]
  · rw [analyze_brief_of_ne fields (OcrOutcome.ok body) hne]
    rfl

/-- C7 witness: the amended theorem applied at a concrete body with a
`full_text` key absent. -/
theorem C7_witness :
    (((Json.obj [("pages", Json.num 3)]).index "full_text").asStr
      = none) ∧
    extractPdfBytes [⟨some "file", "application/pdf", some [2]⟩] ≠ [] ∧
    ocrTextOf (OcrOutcome.ok (Json.obj [("pages", Json.num 3)]))
      = "No text returned" :=
  ⟨rfl, by decide,
   (C7_missing_full_text_substitutes_placeholder
     (Json.obj [("pages", Json.num 3)]) rfl
     [⟨some "file", "application/pdf", some [2]⟩] (by decide)).1⟩

/-- C8 counterexample: a submission declaring media type "text/plain"
is silently passed through: the handler returns a normal analysis
response and forwards the bytes to the OCR backend (relabelled
application/pdf), with no rejection. -/
theorem C8_counterexample :
    (analyze_brief [⟨some "file", "text/plain", some [1, 2]⟩]
        OcrOutcome.invalidJson).2 =
      [BackendCall.ocr [1, 2] "brief.pdf" "application/pdf"] ∧
    Response.isError
        (analyze_brief [⟨some "file", "text/plain", some [1, 2]⟩]
          OcrOutcome.invalidJson).1 = false :=
  ⟨rfl, rfl⟩

/-- `filePartStep` reads only the name and the bytes outcome of a
field, never its declared media type. -/
theorem filePartStep_eq_of_proj (acc : List Nat) (f g : MultipartField)
    (hn : f.name = g.name) (hb : f.bytesResult = g.bytesResult) :
    filePartStep acc f = filePartStep acc g := by
  unfold filePartStep
  rw [hn, hb]

/-- The accumulated file bytes depend only on the names and bytes
outcomes of the submitted fields. -/
theorem extractPdfBytes_eq_of_proj (fields fields2 : List MultipartField)
    (h : fields.map (fun f => (f.name, f.bytesResult))
       = fields2.map (fun f => (f.name, f.bytesResult))) :
    extractPdfBytes fields = extractPdfBytes fields2 := by
  unfold extractPdfBytes
  suffices hgen : ∀ acc, fields.foldl filePartStep acc
      = fields2.foldl filePartStep acc from hgen []
  induction fields generalizing fields2 with
  | nil =>
    cases fields2 with
    | nil => intro acc; rfl
    | cons g gs => simp at h
  | cons f fs ih =>
    cases fields2 with
    | nil => simp at h
    | cons g gs =>
      simp only [List.map_cons, List.cons.injEq, Prod.mk.injEq] at h
      intro acc
      simp only [List.foldl_cons]
      rw [filePartStep_eq_of_proj acc f g h.1.1 h.1.2]
      exact ih gs h.2 _

/-- C8 (amended): intake never inspects the declared media type. Any
two submissions that agree on field names and bytes are handled
identically regardless of their declared media types, so a submission
declaring any non-pdf type is silently passed through to the pipeline
(and its bytes are forwarded to OCR relabelled as application/pdf). -/
theorem C8_media_type_ignored (fields fields2 : List MultipartField)
    (b : OcrOutcome)
    (h : fields.map (fun f => (f.name, f.bytesResult))
       = fields2.map (fun f => (f.name, f.bytesResult))) :
    analyze_brief fields b = analyze_brief fields2 b := by
  unfold analyze_brief
  rw [extractPdfBytes_eq_of_proj fields fields2 h]

/-- C8 witness: the amended theorem applied to a "text/plain"
submission versus the same bytes declared "application/pdf". -/
theorem C8_witness :
    [(⟨some "file", "text/plain", some [5, 6]⟩ : MultipartField)].map
        (fun f => (f.name, f.bytesResult)) =
      [(⟨some "file", "application/pdf", some [5, 6]⟩ : MultipartField)].map
        (fun f => (f.name, f.bytesResult)) ∧
    analyze_brief [⟨some "file", "text/plain", some [5, 6]⟩]
        OcrOutcome.invalidJson =
      analyze_brief [⟨some "file", "application/pdf", some [5, 6]⟩]
        OcrOutcome.invalidJson :=
  ⟨by decide,
   C8_media_type_ignored [⟨some "file", "text/plain", some [5, 6]⟩]
     [⟨some "file", "application/pdf", some [5, 6]⟩]
     OcrOutcome.invalidJson (by decide)⟩

/-- C9: for any two requests with non-empty accumulated file bytes,
the `predicted_outcome`, `top_cases` and `judge_opinion` fields of the
two analysis responses are identical: they are fixed constants
independent of the uploaded content and of the OCR backend outcome. -/
theorem C9_constant_analysis_fields (f1 f2 : List MultipartField)
    (b1 b2 : OcrOutcome)
    (h1 : extractPdfBytes f1 ≠ []) (h2 : extractPdfBytes f2 ≠ []) :
    ∃ a1 a2,
      (analyze_brief f1 b1).1 = Response.analysis a1 ∧
      (analyze_brief f2 b2).1 = Response.analysis a2 ∧
      a1.predicted_outcome = a2.predicted_outcome ∧
      a1.top_cases = a2.top_cases ∧
      a1.judge_opinion = a2.judge_opinion := by
  rw [analyze_brief_of_ne f1 b1 h1, analyze_brief_of_ne f2 b2 h2]
  exact ⟨_, _, rfl, rfl, rfl, rfl, rfl⟩

/-- C9 witness: the theorem applied to two concrete requests with
different bytes and different OCR backend outcomes. -/
theorem C9_witness :
    extractPdfBytes [⟨some "file", "application/pdf", some [1]⟩] ≠ [] ∧
    extractPdfBytes [⟨some "file", "application/pdf", some [2, 3]⟩] ≠ [] ∧
    ∃ a1 a2,
      (analyze_brief [⟨some "file", "application/pdf", some [1]⟩]
          (OcrOutcome.ok (Json.obj [("full_text", Json.str "alpha")]))).1
        = Response.analysis a1 ∧
      (analyze_brief [⟨some "file", "application/pdf", some [2, 3]⟩]
          (OcrOutcome.transportErr "down")).1 = Response.analysis a2 ∧
      a1.predicted_outcome = a2.predicted_outcome ∧
      a1.top_cases = a2.top_cases ∧
      a1.judge_opinion = a2.judge_opinion :=
  ⟨by decide, by decide,
   C9_constant_analysis_fields
     [⟨some "file", "application/pdf", some [1]⟩]
     [⟨some "file", "application/pdf", some [2, 3]⟩]
     (OcrOutcome.ok (Json.obj [("full_text", Json.str "alpha")]))
     (OcrOutcome.transportErr "down") (by decide) (by decide)⟩

/-- C10: for every non-empty upload, the `ocr_text` field of the
response is exactly the first min(500, length) characters of the
extracted text followed by the three-character marker "...": the
ellipsis is appended unconditionally, and empty extracted text yields
exactly "...". -/
theorem C10_preview_ellipsis_unconditional (fields : List MultipartField)
    (b : OcrOutcome) (hne : extractPdfBytes fields ≠ []) :
    ∃ a, (analyze_brief fields b).1 = Response.analysis a ∧
      a.ocr_text = String.mk ((ocrTextOf b).data.take 500) ++ "..." ∧
      a.ocr_text.length = min 500 (ocrTextOf b).length + 3 ∧
      (ocrTextOf b = "" → a.ocr_text = "...") := by
  rw [analyze_brief_of_ne fields b hne]
  refine ⟨_, rfl, rfl, ?_, ?_⟩
  · rw [String.length_append, String.length_mk, List.length_take]
    rfl
  · intro hemp
    rw [hemp]
    rfl

/-- C10 witness: the theorem applied at a concrete upload whose OCR
backend returns an empty `full_text`, so the preview is exactly
"...". -/
theorem C10_witness :
    extractPdfBytes [⟨some "file", "application/pdf", some [8]⟩] ≠ [] ∧
    ∃ a,
      (analyze_brief [⟨some "file", "application/pdf", some [8]⟩]
          (OcrOutcome.ok (Json.obj [("full_text", Json.str "")]))).1
        = Response.analysis a ∧
      a.ocr_text = String.mk
          ((ocrTextOf (OcrOutcome.ok
            (Json.obj [("full_text", Json.str "")]))).data.take 500)
          ++ "..." ∧
      a.ocr_text.length = min 500
          (ocrTextOf (OcrOutcome.ok
            (Json.obj [("full_text", Json.str "")]))).length + 3 ∧
      (ocrTextOf (OcrOutcome.ok (Json.obj [("full_text", Json.str "")]))
          = "" → a.ocr_text = "...") :=
  ⟨by decide,
   C10_preview_ellipsis_unconditional
     [⟨some "file", "application/pdf", some [8]⟩]
     (OcrOutcome.ok (Json.obj [("full_text", Json.str "")]))
     (by decide)⟩
